import Mathlib

/-!
Verification of the cross-field validation logic in
`netbox_access_lists/forms.py`: the duplicate-name check of
`AccessListForm.clean` and the remark/logic mutual-exclusivity checks of
`ACLStandardRuleForm.clean` and `ACLExtendedRuleForm.clean`.

Strings model Django form field values: an empty string is a falsy
(unpopulated) field, matching Python truthiness of `cleaned_data.get(...)`.
Model references (prefixes) are `Option Nat` (a primary key or `none`),
and port lists are `List Nat` (empty list is falsy).
-/

/-- ASCII lowercase of a string, modelling the case folding of Django's
`name__iexact` lookup. -/
def strLower (s : String) : String := ⟨s.data.map Char.toLower⟩

/-- Case-insensitive string equality, as used by `filter(name__iexact=name)`. -/
def iexact (a b : String) : Bool := strLower a == strLower b

/-- A stored `AccessList` row: primary key, device foreign key, name. -/
structure AccessListRecord where
  id : Nat
  device : Nat
  name : String
deriving DecidableEq

/-- The ACL table contents at validation time. -/
abbrev ACLStore := List AccessListRecord

/-- The read query `AccessList.objects.filter(name__iexact=name, device=device).exists()`.
Note it does not exclude any row: the form never excludes the instance
being edited. -/
def existsNameDevice (σ : ACLStore) (name : String) (device : Nat) : Bool :=
  σ.any (fun r => iexact r.name name && r.device == device)

/-- Outcome of `AccessListForm.clean`. -/
inductive ACLResult
  | accepted
  | duplicateName
deriving DecidableEq

/-- Full observable outcome of one run of `AccessListForm.clean`:
the accept/reject result, the store after the run (the only store
interaction in the source is the read query), and whether the
existence query was executed. -/
structure ACLCleanOutcome where
  result : ACLResult
  store : ACLStore
  queried : Bool
deriving DecidableEq

/-- `AccessListForm.clean` (forms.py lines 57-65).

    - `nameErrors` models `self.errors.get('name')`: when truthy, the
      method returns `cleaned_data` at once, before any query.
    - `nameChanged` / `deviceChanged` model membership of `'name'` /
      `'device'` in `self.changed_data`.
    - The duplicate check runs exactly when a change flag is set, and
      raises `ValidationError` (`duplicateName`) when the existence
      query is true. The query never writes to the store. -/
def AccessListForm.clean (nameErrors nameChanged deviceChanged : Bool)
    (name : String) (device : Nat) (σ : ACLStore) : ACLCleanOutcome :=
  if nameErrors then ⟨ACLResult.accepted, σ, false⟩
  else if nameChanged || deviceChanged then
    if existsNameDevice σ name device then ⟨ACLResult.duplicateName, σ, true⟩
    else ⟨ACLResult.accepted, σ, true⟩
  else ⟨ACLResult.accepted, σ, false⟩

/-- Modelled from the spec (section 4.1): the duplicate condition as the
spec words it, "an existing AccessList (any other than the one being
edited) matches the same device and the same name under case-insensitive
comparison". `editedId` is the primary key of the instance being edited
(`none` on a create). The source code performs no such exclusion; this
definition exists only to be compared with `AccessListForm.clean`. -/
def specDuplicateOther (σ : ACLStore) (editedId : Option Nat)
    (name : String) (device : Nat) : Bool :=
  σ.any (fun r =>
    (match editedId with
     | some i => r.id != i
     | none => true) && r.device == device && iexact r.name name)

/-- Which rule field a `MutuallyExclusiveFields` error reports. -/
inductive RuleField
  | action
  | sourcePfx
  | sourcePorts
  | destinationPfx
  | destinationPorts
  | protocol
deriving DecidableEq

/-- Outcome of a rule form `clean`. -/
inductive RuleResult
  | accepted
  | mutuallyExclusive : RuleField → RuleResult
deriving DecidableEq

/-- `ACLStandardRuleForm.clean` (forms.py lines 148-157): when `remark`
is truthy, raise on a truthy `action`, then on a truthy `source_prefix`;
otherwise return `cleaned_data`. -/
def ACLStandardRuleForm.clean (remark action : String)
    ( source_prefix : Option Nat) : RuleResult :=
  if remark ≠ "" then
    if action ≠ "" then RuleResult.mutuallyExclusive RuleField.action
    else if source_prefix ≠ none then RuleResult.mutuallyExclusive RuleField.sourcePfx
    else RuleResult.accepted
  else RuleResult.accepted

/-- `ACLExtendedRuleForm.clean` (forms.py lines 231-248): when `remark`
is truthy, raise on the first truthy field among `action`,
`source_prefix`, `source_ports`, `destination_prefix`,
`destination_ports`, `protocol`, in that source order; otherwise return
`cleaned_data`. -/
def ACLExtendedRuleForm.clean (remark action : String)
    ( source_prefix : Option Nat) (source_ports : List Nat)
    ( destination_prefix : Option Nat) (destination_ports : List Nat)
    (protocol : String) : RuleResult :=
  if remark ≠ "" then
    if action ≠ "" then RuleResult.mutuallyExclusive RuleField.action
    else if source_prefix ≠ none then RuleResult.mutuallyExclusive RuleField.sourcePfx
    else if source_ports ≠ [] then RuleResult.mutuallyExclusive RuleField.sourcePorts
    else if destination_prefix ≠ none then RuleResult.mutuallyExclusive RuleField.destinationPfx
    else if destination_ports ≠ [] then RuleResult.mutuallyExclusive RuleField.destinationPorts
    else if protocol ≠ "" then RuleResult.mutuallyExclusive RuleField.protocol
    else RuleResult.accepted
  else RuleResult.accepted

/-- C2: a standard-rule submission with a non-empty remark and at least
one of `action`, `source_prefix` populated fails with a
`MutuallyExclusiveFields` error naming the first conflicting field in
the order `action` then `source_prefix`; with both set the reported
conflict is `action`. -/
theorem C2_standard_rule_conflict (remark action : String)
    ( source_prefix : Option Nat) (hrem : remark ≠ "")
    (hpop : action ≠ "" ∨ source_prefix ≠ none) :
    ACLStandardRuleForm.clean remark action source_prefix
      = RuleResult.mutuallyExclusive
          (if action ≠ "" then RuleField.action else RuleField.sourcePfx) := by
  unfold ACLStandardRuleForm.clean
  rw [if_pos hrem]
  by_cases ha : action ≠ ""
  · rw [if_pos ha, if_pos ha]
  · rw [if_neg ha, if_neg ha]
    have hs : source_prefix ≠ none := hpop.resolve_left ha
    rw [if_pos hs]

/-- Witness for C2 at a concrete input: remark and both logic fields
set; the reported conflict is `action`. -/
theorem C2_standard_rule_conflict_witness :
    ACLStandardRuleForm.clean "deny all" "deny" (some 7)
      = RuleResult.mutuallyExclusive RuleField.action := by
  have h := C2_standard_rule_conflict "deny all" "deny" (some 7)
    (by decide) (Or.inl (by decide))
  simpa using h

/-- C3: an extended-rule submission with a non-empty remark and at least
one of the six logic fields populated fails with a
`MutuallyExclusiveFields` error reporting the first populated field in
the order `action`, `source_prefix`, `source_ports`,
`destination_prefix`, `destination_ports`, `protocol`. -/
theorem C3_extended_rule_conflict (remark action : String)
    ( source_prefix : Option Nat) (source_ports : List Nat)
    ( destination_prefix : Option Nat) (destination_ports : List Nat)
    (protocol : String) (hrem : remark ≠ "")
    (hpop : action ≠ "" ∨ source_prefix ≠ none ∨ source_ports ≠ [] ∨
      destination_prefix ≠ none ∨ destination_ports ≠ [] ∨ protocol ≠ "") :
    ACLExtendedRuleForm.clean remark action source_prefix source_ports
        destination_prefix destination_ports protocol
      = RuleResult.mutuallyExclusive
          (if action ≠ "" then RuleField.action
           else if source_prefix ≠ none then RuleField.sourcePfx
           else if source_ports ≠ [] then RuleField.sourcePorts
           else if destination_prefix ≠ none then RuleField.destinationPfx
           else if destination_ports ≠ [] then RuleField.destinationPorts
           else RuleField.protocol) := by
  unfold ACLExtendedRuleForm.clean
  rw [if_pos hrem]
  by_cases ha : action ≠ ""
  · rw [if_pos ha, if_pos ha]
  · rw [if_neg ha, if_neg ha]
    by_cases hsp : source_prefix ≠ none
    · rw [if_pos hsp, if_pos hsp]
    · rw [if_neg hsp, if_neg hsp]
      by_cases hspo : source_ports ≠ []
      · rw [if_pos hspo, if_pos hspo]
      · rw [if_neg hspo, if_neg hspo]
        by_cases hdp : destination_prefix ≠ none
        · rw [if_pos hdp, if_pos hdp]
        · rw [if_neg hdp, if_neg hdp]
          by_cases hdpo : destination_ports ≠ []
          · rw [if_pos hdpo, if_pos hdpo]
          · rw [if_neg hdpo, if_neg hdpo]
            have hp : protocol ≠ "" := by
              rcases hpop with h | h | h | h | h | h
              · exact absurd h ha
              · exact absurd h hsp
              · exact absurd h hspo
              · exact absurd h hdp
              · exact absurd h hdpo
              · exact h
            rw [if_pos hp]

/-- Witness for C3 at the spec scenario: remark "allow mgmt" with
protocol "tcp" alone reports `protocol` as the conflict. -/
theorem C3_extended_rule_conflict_witness :
    ACLExtendedRuleForm.clean "allow mgmt" "" none [] none [] "tcp"
      = RuleResult.mutuallyExclusive RuleField.protocol := by
  have h := C3_extended_rule_conflict "allow mgmt" "" none [] none [] "tcp"
    (by decide) (Or.inr (Or.inr (Or.inr (Or.inr (Or.inr (by decide))))))
  simpa using h

/-- C7: a standard rule with remark alone is accepted, and a standard
rule with any action and source prefix but an empty remark is accepted;
the exclusivity validator raises no error in either case. -/
theorem C7_standard_rule_accepts (remark action : String)
    ( source_prefix : Option Nat) :
    ACLStandardRuleForm.clean remark "" none = RuleResult.accepted
    ∧ ACLStandardRuleForm.clean "" action source_prefix = RuleResult.accepted := by
  constructor
  · unfold ACLStandardRuleForm.clean
    by_cases h : remark ≠ ""
    · rw [if_pos h]; simp
    · rw [if_neg h]
  · rfl

/-- C10: with an empty remark, both rule validators accept every
combination of the logic fields, including the all-empty combination. -/
theorem C10_empty_remark_accepts (action : String) ( source_prefix : Option Nat)
    (actionE : String) ( source_prefixE : Option Nat) (source_ports : List Nat)
    ( destination_prefix : Option Nat) (destination_ports : List Nat)
    (protocol : String) :
    ACLStandardRuleForm.clean "" action source_prefix = RuleResult.accepted
    ∧ ACLExtendedRuleForm.clean "" actionE source_prefixE source_ports
        destination_prefix destination_ports protocol = RuleResult.accepted := by
  exact ⟨rfl, rfl⟩

/-- Membership form of the existence query. -/
theorem existsNameDevice_iff (σ : ACLStore) (name : String) (device : Nat) :
    existsNameDevice σ name device = true
      ↔ ∃ r ∈ σ, r.device = device ∧ iexact r.name name = true := by
  unfold existsNameDevice
  rw [List.any_eq_true]
  constructor
  · rintro ⟨r, hr, hb⟩
    rw [Bool.and_eq_true, beq_iff_eq] at hb
    exact ⟨r, hr, hb.2, hb.1⟩
  · rintro ⟨r, hr, hdev, hiex⟩
    exact ⟨r, hr, by rw [Bool.and_eq_true, beq_iff_eq]; exact ⟨hiex, hdev⟩⟩

/-- C1 counterexample: editing the ACL with primary key 0 ("edge-in" on
device 1) to the case-only new name "Edge-In". No AccessList other than
the one being edited matches device 1 with a case-insensitively equal
name, so the claim says the submission is accepted; the code's query
does not exclude the edited row, matches it, and rejects with
`duplicateName`. -/
theorem C1_counterexample :
    (AccessListForm.clean false true false "Edge-In" 1 [⟨0, 1, "edge-in"⟩]).result
        = ACLResult.duplicateName
    ∧ specDuplicateOther [⟨0, 1, "edge-in"⟩] (some 0) "Edge-In" 1 = false := by
  constructor
  · decide
  · decide

/-- When a change flag is set and the name field has no earlier error,
the run rejects exactly when some stored row matches device and
case-insensitive name (shared characterisation of the duplicate
branch). -/
theorem clean_duplicate_characterisation (nameChanged deviceChanged : Bool)
    (name : String) (device : Nat) (σ : ACLStore)
    (hch : nameChanged = true ∨ deviceChanged = true) :
    (AccessListForm.clean false nameChanged deviceChanged name device σ).result
        = ACLResult.duplicateName
      ↔ ∃ r ∈ σ, r.device = device ∧ iexact r.name name = true := by
  rw [← existsNameDevice_iff]
  unfold AccessListForm.clean
  have hor : (nameChanged || deviceChanged) = true := by
    rcases hch with h | h
    · rw [h, Bool.true_or]
    · rw [h, Bool.or_true]
  rw [if_neg (by simp), if_pos hor]
  cases hq : existsNameDevice σ name device
  · simp
  · simp

/-- C1 amended: for a submission in which the name or the device
changed (and the name field carries no earlier error), the validator
fails with a `DuplicateName` error exactly when some existing
AccessList — including possibly the very one being edited — has the
same device and a case-insensitively equal name; a case-only rename of
an ACL's own name is therefore rejected, not accepted. -/
theorem C1_duplicate_iff_any_match (nameChanged deviceChanged : Bool)
    (name : String) (device : Nat) (σ : ACLStore)
    (hch : nameChanged = true ∨ deviceChanged = true) :
    (AccessListForm.clean false nameChanged deviceChanged name device σ).result
        = ACLResult.duplicateName
      ↔ ∃ r ∈ σ, r.device = device ∧ iexact r.name name = true :=
  clean_duplicate_characterisation nameChanged deviceChanged name device σ hch

/-- Witness for C1 amended: the case-only self-rename input; the edited
row itself matches, so the validator rejects. -/
theorem C1_duplicate_iff_any_match_witness :
    (AccessListForm.clean false true false "Edge-In" 1 [⟨0, 1, "edge-in"⟩]).result
      = ACLResult.duplicateName := by
  exact (C1_duplicate_iff_any_match true false "Edge-In" 1 [⟨0, 1, "edge-in"⟩]
    (Or.inl rfl)).mpr ⟨⟨0, 1, "edge-in"⟩, by simp, by decide, by decide⟩

/-- C4: if an AccessList named `n1` exists on a device and `n2` is
case-insensitively equal to `n1`, then creating an AccessList named
`n2` on the same device (a creation: the name counts as changed and the
new row is not yet stored) fails with a `DuplicateName` error. -/
theorem C4_create_case_duplicate (device : Nat) (n1 n2 : String)
    (σ : ACLStore) (r : AccessListRecord) (deviceChanged : Bool)
    (hmem : r ∈ σ) (hdev : r.device = device) (hname : r.name = n1)
    (hiex : iexact n1 n2 = true) :
    (AccessListForm.clean false true deviceChanged n2 device σ).result
      = ACLResult.duplicateName := by
  exact (clean_duplicate_characterisation true deviceChanged n2 device σ
    (Or.inl rfl)).mpr ⟨r, hmem, hdev, hname ▸ hiex⟩

/-- Witness for C4 at the spec scenario: "Edge-In" exists on device 1;
creating "edge-in" on device 1 is rejected with a duplicate-name
error. -/
theorem C4_create_case_duplicate_witness :
    (AccessListForm.clean false true false "edge-in" 1 [⟨0, 1, "Edge-In"⟩]).result
      = ACLResult.duplicateName := by
  exact C4_create_case_duplicate 1 "Edge-In" "edge-in" [⟨0, 1, "Edge-In"⟩]
    ⟨0, 1, "Edge-In"⟩ false (by simp) rfl rfl (by decide)

/-- C5: name uniqueness is scoped per device: a submission is accepted
whenever no stored AccessList on the same device has a
case-insensitively equal name, even if AccessLists on other devices
carry the identical name. -/
theorem C5_per_device_scope (nameChanged deviceChanged : Bool)
    (name : String) (device : Nat) (σ : ACLStore)
    (h : ∀ r ∈ σ, r.device = device → iexact r.name name = false) :
    (AccessListForm.clean false nameChanged deviceChanged name device σ).result
      = ACLResult.accepted := by
  have hq : existsNameDevice σ name device = false := by
    cases hc : existsNameDevice σ name device
    · rfl
    · rcases (existsNameDevice_iff σ name device).mp hc with ⟨r, hr, hdev, hiex⟩
      rw [h r hr hdev] at hiex
      cases hiex
  cases nameChanged <;> cases deviceChanged <;>
    simp [AccessListForm.clean, hq]

/-- Witness for C5: creating "Edge-In" on device 1 while "Edge-In"
already exists on device 2 is accepted. -/
theorem C5_per_device_scope_witness :
    (AccessListForm.clean false true false "Edge-In" 1 [⟨0, 2, "Edge-In"⟩]).result
      = ACLResult.accepted := by
  exact C5_per_device_scope true false "Edge-In" 1 [⟨0, 2, "Edge-In"⟩]
    (by intro r hr; simp at hr; subst hr; intro hdev; cases hdev)

/-- C6: when neither the name nor the device changed, the validator
accepts without a `DuplicateName` error, whatever the store holds and
whether or not the name field carries earlier errors. -/
theorem C6_unchanged_accepts (nameErrors : Bool) (name : String)
    (device : Nat) (σ : ACLStore) :
    (AccessListForm.clean nameErrors false false name device σ).result
      = ACLResult.accepted := by
  cases nameErrors <;> rfl

/-- C8: each validator is a pure function of its inputs: validating the
same submission against the same store twice gives the same outcome,
and the AccessList validator leaves the store unchanged (its only store
interaction is the read query); the rule validators touch no store at
all. -/
theorem C8_validators_pure (nameErrors nameChanged deviceChanged : Bool)
    (name : String) (device : Nat) (σ : ACLStore)
    (remark action : String) ( source_prefix : Option Nat)
    (remarkE actionE : String) ( source_prefixE : Option Nat)
    (source_ports : List Nat) ( destination_prefix : Option Nat)
    (destination_ports : List Nat) (protocol : String) :
    AccessListForm.clean nameErrors nameChanged deviceChanged name device σ
        = AccessListForm.clean nameErrors nameChanged deviceChanged name device σ
    ∧ (AccessListForm.clean nameErrors nameChanged deviceChanged name device σ).store = σ
    ∧ ACLStandardRuleForm.clean remark action source_prefix
        = ACLStandardRuleForm.clean remark action source_prefix
    ∧ ACLExtendedRuleForm.clean remarkE actionE source_prefixE source_ports
          destination_prefix destination_ports protocol
        = ACLExtendedRuleForm.clean remarkE actionE source_prefixE source_ports
          destination_prefix destination_ports protocol := by
  refine ⟨rfl, ?_, rfl, rfl⟩
  unfold AccessListForm.clean
  split_ifs <;> rfl

/-- C9: when the name field already carries a field-level error,
`AccessListForm.clean` returns at once: the outcome is acceptance (no
`DuplicateName` stacked on top) and the existence query is never run,
whatever the store holds or which fields changed. -/
theorem C9_name_errors_short_circuit (nameChanged deviceChanged : Bool)
    (name : String) (device : Nat) (σ : ACLStore) :
    AccessListForm.clean true nameChanged deviceChanged name device σ
      = ⟨ACLResult.accepted, σ, false⟩ := rfl
